import Mathlib

namespace Smooth

/-!
# Verification of the smooth-sdk task/session lifecycle and event protocol

Shallow embedding of the core of the `smooth` Python SDK
(`src/smooth/_interface.py`, `src/smooth/_tools.py`, `src/smooth/_utils.py`):
the connection reference counting, the Poller's event-correlation step, the
custom-tool reply protocol, the `result`/`live_url`/`recording_url` waiting
loops, session `close`, and the `encode_url` query-injection helper.

Conventions of the embedding:
* Python string statuses are an enum; `status not in ["running", "waiting"]`
  becomes `¬ isActive`.
* The event payload dict is embedded by its accessed keys
  (`name`, `input`, `code`, `output`).
* asyncio futures are explicit states; the `_event_futures` dict is split into
  the registry of all futures ever created (callers keep references to popped
  futures) and the set of ids currently registered in the dict.
* Waiting loops (`result`, `live_url`, `recording_url`) poll every 0.2 s; time
  is measured in loop iterations, so an integer `timeout` of `t` seconds
  admits iterations `k` with `k < 5 * t`.  Loops take explicit fuel; fuel
  exhaustion is a dedicated outcome, never identified with a real one.
-/

/-- Task status strings used by the SDK (from the spec's data model and the
status literals in `_interface.py`; the `models` module itself is not in the
source tree). -/
inductive TaskStatus
  | waiting
  | running
  | done
  | failed
  | cancelled
deriving DecidableEq, Repr

/-- `status in ["running", "waiting"]`: the task is still active (non-terminal).
From the membership tests in `_interface.py`. -/
def TaskStatus.isActive : TaskStatus → Bool
  | .running => true
  | .waiting => true
  | _ => false

/-- Modelled from the spec: the `TaskResponse` snapshot (the `models` module is
absent from the source tree; fields follow the spec's TaskSnapshot data model
and the accesses in `_interface.py`). `none` = field absent, `some ""` =
explicitly empty. -/
structure TaskResponse where
  taskId : String
  status : TaskStatus
  output : Option String
  live_url : Option String
  recording_url : Option String
  downloads_url : Option String
deriving DecidableEq, Repr

/-- Modelled from the spec: a task event (the `models` module is absent from
the source tree); the payload dict is embedded by the keys the interface code
reads: `name`, `code`, `output`. -/
structure TaskEvent where
  eventId : Option String
  name : String
  payloadName : Option String
  payloadCode : Option Int
  payloadOutput : Option String
  timestamp : Option Int
deriving DecidableEq, Repr

/-! ## Connection reference counting (`_connect` / `_disconnect`) -/

/-- The connection state of an `AsyncTaskHandle`: the `_is_alive` counter and
whether the `_polling_task` exists and is not done.  `is_alive` is an `Int` so
that non-negativity is a genuine theorem, not a typing artifact. -/
structure ConnState where
  is_alive : Int
  pollerRunning : Bool
deriving DecidableEq, Repr

/-- Handle construction: `self._is_alive = 0`, no polling task. -/
def ConnState.init : ConnState := ⟨0, false⟩

/-- `AsyncTaskHandle._connect`: increment `_is_alive`; if it did not become 1,
return without touching the poller; otherwise launch the poller.  The returned
`Bool` reports whether a poller was launched by this call. -/
def connect (s : ConnState) : ConnState × Bool :=
  let n := s.is_alive + 1
  if n ≠ 1 then (⟨n, s.pollerRunning⟩, false)
  else (⟨n, true⟩, true)

/-- `AsyncTaskHandle._disconnect`:
`self._is_alive = 0 if self._is_alive < 1 else self._is_alive - 1`, then cancel
the polling task if the count reached 0 and the task is running.  The returned
`Bool` reports whether the poller was cancelled by this call. -/
def disconnect (s : ConnState) : ConnState × Bool :=
  let n := if s.is_alive < 1 then 0 else s.is_alive - 1
  if n = 0 ∧ s.pollerRunning then (⟨n, false⟩, true)
  else (⟨n, s.pollerRunning⟩, false)

/-- An event that can change the connection state: a `_connect` call, a
`_disconnect` call, or the Poller stopping itself — the `_poller` loop raises
`RuntimeError("Task is not running.")` the moment a fetched snapshot is
terminal (`_interface.py` line 255; any other exception escaping the loop acts
the same way), which ends the polling task while leaving `_is_alive`
untouched. -/
inductive ConnOp
  | connectOp
  | disconnectOp
  | pollerSelfStopOp
deriving DecidableEq, Repr

/-- Apply one connection event (dropping the launched/stopped report).  The
Poller's self-stop only ends the polling task; the counter is not
decremented. -/
def applyConnOp (s : ConnState) (op : ConnOp) : ConnState :=
  match op with
  | .connectOp => (connect s).1
  | .disconnectOp => (disconnect s).1
  | .pollerSelfStopOp => { s with pollerRunning := false }

/-- The connection state after a sequence of connection events on a freshly
constructed handle. -/
def runConnOps (ops : List ConnOp) : ConnState :=
  ops.foldl applyConnOp ConnState.init

/-- The reference-counting invariant that actually holds of the program: the
count is non-negative and the Poller runs only when the count is positive.
The converse fails — the Poller can stop itself while the count stays
positive (see the C1 counterexample). -/
def ConnInvariant (s : ConnState) : Prop :=
  0 ≤ s.is_alive ∧ (s.pollerRunning = true → 0 < s.is_alive)

/-! ## Event correlation (`_event_futures` and the Poller's reply dispatch) -/

/-- The state of an asyncio future created by `_send_event` and held in
`_event_futures`: pending, resolved (`set_result`), rejected with a
`ToolCallError` or a `RuntimeError` (`set_exception`), or cancelled. -/
inductive FutureState
  | pending
  | resolvedOutput (v : Option String)
  | rejectedToolCall (msg : String)
  | rejectedRuntime (msg : String)
  | cancelledFut
deriving DecidableEq, Repr

/-- `future.done()`. -/
def FutureState.isDone : FutureState → Bool
  | .pending => false
  | _ => true

/-- The correlation state of a handle.  `futures` registers every future ever
created for an event id (callers keep a reference to a future even after the
Poller pops it from the dict); `tableIds` is the set of ids currently present
in the `_event_futures` dict. -/
structure CorrelationState where
  futures : List (String × FutureState)
  tableIds : List String
deriving DecidableEq, Repr

/-- The current state of the future created for event id `i` (whether or not it
is still registered in `_event_futures`). -/
def lookupFut (s : CorrelationState) (i : String) : Option FutureState :=
  (s.futures.find? (fun p => p.1 == i)).map (·.2)

/-- `self._event_futures.get(event.id)`. -/
def tableGet (s : CorrelationState) (i : String) : Option FutureState :=
  if i ∈ s.tableIds then lookupFut s i else none

/-- Transition the future for id `i` to state `f` (`set_result` /
`set_exception` / `cancel` on the future object). -/
def setFut (s : CorrelationState) (i : String) (f : FutureState) : CorrelationState :=
  { s with futures := s.futures.map (fun p => if p.1 == i then (p.1, f) else p) }

/-- The body of the Poller's `browser_action` dispatch for an event whose id is
`i` (`_interface.py` lines 265-275): look the id up in `_event_futures`; if the
future exists and is not done, pop the entry and then dispatch on
`payload["code"]` — 200 resolves with `payload.get("output")`, 400 rejects with
`ToolCallError`, 500 rejects with `RuntimeError`, and any other code leaves the
(already popped) future untouched. -/
def processReplyEventAt (s : CorrelationState) (ev : TaskEvent) (i : String) : CorrelationState :=
  if ev.name = "browser_action" then
    match tableGet s i with
    | some f =>
      if f.isDone then s
      else
        let s1 : CorrelationState := { s with tableIds := s.tableIds.erase i }
        if ev.payloadCode = some 200 then
          setFut s1 i (.resolvedOutput ev.payloadOutput)
        else if ev.payloadCode = some 400 then
          setFut s1 i (.rejectedToolCall (ev.payloadOutput.getD "Unknown error."))
        else if ev.payloadCode = some 500 then
          setFut s1 i (.rejectedRuntime (ev.payloadOutput.getD "Unknown error."))
        else s1
    | none => s
  else s

/-- The Poller's per-event reply handling (`_interface.py` lines 258-275):
events without an id are skipped (`if not event.id: continue`), events with one
go through the `browser_action` dispatch. -/
def processReplyEvent (s : CorrelationState) (ev : TaskEvent) : CorrelationState :=
  match ev.eventId with
  | none => s
  | some i => processReplyEventAt s ev i

/-- The Poller's `finally` cleanup (`_interface.py` lines 282-293): cancel every
not-done future still registered in `_event_futures`, then clear the dict.
Futures that were popped earlier are not touched. -/
def pollerStopCleanup (s : CorrelationState) : CorrelationState :=
  { futures := s.futures.map (fun p =>
      if p.1 ∈ s.tableIds ∧ p.2.isDone = false then (p.1, FutureState.cancelledFut) else p),
    tableIds := [] }

/-- The fulfillment state the spec prescribes for a reply with code `c` and
output `out` (200 / 400 / 500). -/
def replyFulfillment (c : Int) (out : Option String) : FutureState :=
  if c = 200 then .resolvedOutput out
  else if c = 400 then .rejectedToolCall (out.getD "Unknown error.")
  else .rejectedRuntime (out.getD "Unknown error.")

/-! ## Custom tool wrapper (`_tools.py`) -/

/-- A Python exception as the tool protocol distinguishes it: a `ToolCallError`
or any other exception, carrying `str(e)`. -/
inductive PyExc
  | toolCallError (msg : String)
  | otherExc (msg : String)
deriving DecidableEq, Repr

/-- The value handed to `_handle_tool_response`: either the wrapped function's
return value or the exception it raised (caught by `__call__`). -/
inductive ToolResponse
  | value (v : Option String)
  | excResp (e : PyExc)
deriving DecidableEq, Repr

/-- The `tool_call` reply event assembled by `_handle_tool_response` and sent
through `_send_event` (id reuses the triggering event's id). -/
structure ToolReply where
  eventId : String
  name : String
  code : Int
  output : Option String
deriving DecidableEq, Repr

/-- Python's `a or b` for an optional string `a`: `b` when `a` is `None` or
empty (falsy), else the string held by `a`.  Models
`self._error_message or str(response)`. -/
def pyOrElse (a : Option String) (b : String) : String :=
  match a with
  | some m => if m = "" then b else m
  | none => b

/-- `AsyncSmoothTool._handle_tool_response`: a `ToolCallError` response sends
code 400 with the error text; any other exception sends code 500 when the tool
is essential and 400 otherwise, with `self._error_message or str(response)` as
output, and re-raises the exception when essential; a plain value sends code
200 with the value.  Returns the reply event sent and the re-raised exception,
if any. -/
def handle_tool_response (essential : Bool) (error_message : Option String)
    (event_id : String) (response : ToolResponse) : ToolReply × Option PyExc :=
  match response with
  | .excResp (.toolCallError m) => (⟨event_id, "tool_call", 400, some m⟩, none)
  | .excResp (.otherExc m) =>
      (⟨event_id, "tool_call", if essential then 500 else 400,
        some (pyOrElse error_message m)⟩,
       if essential then some (.otherExc m) else none)
  | .value v => (⟨event_id, "tool_call", 200, v⟩, none)

/-- `AsyncSmoothTool.__call__`: run the wrapped function; a normal return is
handled as a value response, a raised exception is caught and handled as an
exception response (whose essential re-raise then escapes `__call__`, leaving
the tool task completed with that exception). -/
def toolCall (essential : Bool) (error_message : Option String) (event_id : String)
    (fnOutcome : Except PyExc (Option String)) : ToolReply × Option PyExc :=
  match fnOutcome with
  | .ok v => handle_tool_response essential error_message event_id (.value v)
  | .error e => handle_tool_response essential error_message event_id (.excResp e)

/-- The state of a tool task object: still executing, completed normally, or
completed with an exception. -/
inductive ToolTaskState
  | runningTask
  | doneOk
  | doneExc (e : PyExc)
deriving DecidableEq, Repr

/-- The Poller's reaping step (`_interface.py` lines 277-279) over the
`_tool_tasks` dict:
`for task in self._tool_tasks.values(): if task.done(): await task`.  Awaiting
the first done task that raised would re-raise its exception; the result is
that exception, if any entry supplies one. -/
def reapToolTasks : List (String × ToolTaskState) → Option PyExc
  | [] => none
  | (_, .doneExc e) :: _ => some e
  | _ :: ts => reapToolTasks ts

/-- A mutation of the `_tool_tasks` dict.  `scheduleOp`: the Poller inserts a
freshly created (hence still running) task for an event id (lines 262-264).
`finishOp`: the wrapped coroutine finishes in any way — return, exception, or
cancellation — and `_run_tool`'s `finally` pops the entry (line 239) while the
coroutine unwinds; the surrounding task is marked done only after that, with no
suspension point in between, so a completed task is never in the dict.
`clearOp`: the Poller's `finally` clears the dict (line 293). -/
inductive ToolTasksOp
  | scheduleOp (i : String)
  | finishOp (i : String)
  | clearOp
deriving DecidableEq, Repr

/-- Apply one `_tool_tasks` mutation. -/
def applyToolTasksOp (dict : List (String × ToolTaskState)) :
    ToolTasksOp → List (String × ToolTaskState)
  | .scheduleOp i =>
      if dict.any (fun p => p.1 == i) then
        dict.map (fun p => if p.1 == i then (p.1, ToolTaskState.runningTask) else p)
      else dict ++ [(i, ToolTaskState.runningTask)]
  | .finishOp i => dict.eraseP (fun p => p.1 == i)
  | .clearOp => []

/-- The `_tool_tasks` dict after a sequence of mutations on a freshly
constructed handle (`self._tool_tasks = {}`). -/
def runToolTasksOps (ops : List ToolTasksOp) : List (String × ToolTaskState) :=
  ops.foldl applyToolTasksOp []

/-! ## The `result` waiting loop

The waiting loops of `result` / `live_url` / `recording_url` share the shape
`while timeout is None or (loop.time() - start_time) < timeout: <check>;
await asyncio.sleep(0.2)`.  Time is discretized by loop iteration: the body
sleeps 0.2 s, so at the k-th check the elapsed time is k/5 seconds and the
guard `elapsed < timeout` is `k < 5 * timeout`.  `snap k` is the value of
`self._task_response` (written concurrently by the Poller) at the k-th check.
Loops carry explicit fuel; running out of fuel is reported as a distinct
outcome and never identified with a real one. -/

/-- The loop guard `timeout is None or (loop.time() - start_time) < timeout`
at the k-th iteration. -/
def withinDeadline (timeout : Option Int) (k : Nat) : Bool :=
  match timeout with
  | none => true
  | some t => (k : Int) < 5 * t

/-- Whether a cached snapshot value keeps the loop waiting: absent snapshots
and active statuses do (`if self._task_response and status not in [...]`). -/
def snapActive : Option TaskResponse → Bool
  | some r => r.status.isActive
  | none => true

/-- Outcome of `result`: the returned snapshot, the `TimeoutError` naming the
task id, the `ValueError` for an invalid timeout, or fuel exhaustion (a model
artifact standing for a run longer than the supplied fuel). -/
inductive ResultOutcome
  | ok (r : TaskResponse)
  | timeoutErr (taskId : String)
  | invalidTimeout
  | outOfFuel
deriving DecidableEq, Repr

/-- The `while` loop of `AsyncTaskHandle.result` (lines 93-98): while the
deadline has not passed, return the snapshot as soon as it is present with a
non-active status, else sleep and re-check; when the guard fails raise
`TimeoutError`. -/
def resultLoop (snap : Nat → Option TaskResponse) (tid : String) (timeout : Option Int) :
    Nat → Nat → ResultOutcome
  | 0, _ => .outOfFuel
  | fuel + 1, k =>
    if withinDeadline timeout k then
      match snap k with
      | some r =>
          if r.status.isActive then resultLoop snap tid timeout fuel (k + 1) else .ok r
      | none => resultLoop snap tid timeout fuel (k + 1)
    else .timeoutErr tid

/-- `timeout is not None and timeout < 1`: the validation in `result`
(lines 84-85). -/
def resultTimeoutInvalid (timeout : Option Int) : Bool :=
  match timeout with
  | some t => t < 1
  | none => false

/-- The fast-path test of `result` (lines 78-82):
`self._task_response and self._task_response.status not in ["running", "waiting"]`. -/
def cachedTerminal : Option TaskResponse → Bool
  | some r => !r.status.isActive
  | none => false

/-- A run of `result`: its outcome and whether `_connection()` was entered.
`connected = true` means `_connect` ran on entry (performing the initial
`_get_task` fetch and starting the Poller) and the matching `_disconnect` ran
in the context manager's `finally`; every network call and suspension point of
`result` lies inside that block, so `connected = false` means no Transport
call and no suspension happened. -/
structure ResultRun where
  outcome : ResultOutcome
  connected : Bool
deriving DecidableEq, Repr

/-- `AsyncTaskHandle.result` (lines 76-98): return the cached snapshot if it is
already terminal; then validate the timeout; then connect and run the waiting
loop under `_connection()`. -/
def resultModel (cached : Option TaskResponse) (timeout : Option Int)
    (snap : Nat → Option TaskResponse) (tid : String) (fuel : Nat) : ResultRun :=
  match cached with
  | some r =>
    if !r.status.isActive then ⟨.ok r, false⟩
    else if resultTimeoutInvalid timeout then ⟨.invalidTimeout, false⟩
    else ⟨resultLoop snap tid timeout fuel 0, true⟩
  | none =>
    if resultTimeoutInvalid timeout then ⟨.invalidTimeout, false⟩
    else ⟨resultLoop snap tid timeout fuel 0, true⟩

/-! ## `encode_url` (`_utils.py` lines 13-22) and the `urllib.parse` helpers it
delegates to.  The percent-codec is modelled at the byte level, exact for
ASCII inputs (the real `quote`/`unquote` additionally expand non-ASCII
characters into UTF-8 byte sequences). -/

/-- A hexadecimal digit (for percent-decoding). -/
def isHexDigitChar (c : Char) : Bool :=
  decide (('0' ≤ c ∧ c ≤ '9') ∨ ('A' ≤ c ∧ c ≤ 'F') ∨ ('a' ≤ c ∧ c ≤ 'f'))

/-- The value of a hexadecimal digit. -/
def hexDigitVal (c : Char) : Nat :=
  if decide ('0' ≤ c ∧ c ≤ '9') then c.toNat - '0'.toNat
  else if decide ('A' ≤ c ∧ c ≤ 'F') then c.toNat - 'A'.toNat + 10
  else c.toNat - 'a'.toNat + 10

/-- The uppercase hexadecimal digit for a value below 16 (percent-encoding). -/
def hexDigitChar (n : Nat) : Char :=
  if n < 10 then Char.ofNat ('0'.toNat + n) else Char.ofNat ('A'.toNat + n - 10)

/-- `urllib.parse.unquote_plus`: `+` becomes a space, `%XX` (two hex digits)
the character with code XX, malformed escapes are kept literally. -/
def unquotePlusChars : List Char → List Char
  | [] => []
  | '+' :: rest => ' ' :: unquotePlusChars rest
  | '%' :: a :: b :: rest =>
      if isHexDigitChar a && isHexDigitChar b then
        Char.ofNat (16 * hexDigitVal a + hexDigitVal b) :: unquotePlusChars rest
      else '%' :: unquotePlusChars (a :: b :: rest)
  | c :: rest => c :: unquotePlusChars rest

/-- String wrapper for `unquotePlusChars`. -/
def unquotePlus (s : String) : String := ⟨unquotePlusChars s.data⟩

/-- The characters `urllib.parse.quote` never encodes (`_ALWAYS_SAFE`):
letters, digits, and `_.-~`. -/
def isAlwaysSafe (c : Char) : Bool :=
  decide (('A' ≤ c ∧ c ≤ 'Z') ∨ ('a' ≤ c ∧ c ≤ 'z') ∨ ('0' ≤ c ∧ c ≤ '9')
    ∨ c = '_' ∨ c = '.' ∨ c = '-' ∨ c = '~')

/-- One character under `urllib.parse.quote_plus` with `safe=''` (the default
`quote_via` of `urlencode`): a space becomes `+`, always-safe characters pass
through, anything else is `%XX` with uppercase hex. -/
def quotePlusChar (c : Char) : List Char :=
  if c = ' ' then ['+']
  else if isAlwaysSafe c then [c]
  else ['%', hexDigitChar (c.toNat / 16 % 16), hexDigitChar (c.toNat % 16)]

/-- `urllib.parse.quote_plus` with `safe=''`. -/
def quotePlus (s : String) : String := ⟨(s.data.map quotePlusChar).flatten⟩

/-- Split a character list on every occurrence of `sep` (Python
`s.split(sep)`; empty pieces are kept, and the empty string yields one empty
piece). -/
def splitAll (sep : Char) : List Char → List (List Char)
  | [] => [[]]
  | c :: rest =>
      if c = sep then [] :: splitAll sep rest
      else
        match splitAll sep rest with
        | [] => [[c]]
        | piece :: more => (c :: piece) :: more

/-- Concatenate strings with `&` between them (`"&".join`). -/
def joinAmp : List String → String
  | [] => ""
  | [x] => x
  | x :: xs => x ++ "&" ++ joinAmp xs

/-- `s.startswith(pre)`, kernel-reducible. -/
def strStartsWith (s pre : String) : Bool := pre.data.isPrefixOf s.data

/-- Split a character list at the first occurrence of `sep`, if present
(Python `s.split(sep, 1)`). -/
def splitFirst (sep : Char) : List Char → Option (List Char × List Char)
  | [] => none
  | c :: rest =>
      if c = sep then some ([], rest)
      else
        match splitFirst sep rest with
        | some (l, r) => some (c :: l, r)
        | none => none

/-- `urllib.parse.parse_qsl` with `parse_qs`'s defaults
(`keep_blank_values=False`, `strict_parsing=False`, separator `&`): split the
query on `&`, skip empty fields, split each field at the first `=` — fields
with no `=` or with an empty value are dropped — and percent-decode names and
values. -/
def parseQsl (q : String) : List (String × String) :=
  (splitAll '&' q.data).filterMap (fun field =>
    if field = [] then none
    else
      match splitFirst '=' field with
      | none => none
      | some (n, v) =>
          if v = [] then none
          else some (unquotePlus ⟨n⟩, unquotePlus ⟨v⟩))

/-- One step of `parse_qs`'s dict building: append the value to an existing
key's list (keeping the key's position), else add the key at the end. -/
def addParam (acc : List (String × List String)) (kv : String × String) :
    List (String × List String) :=
  if acc.any (fun p => p.1 == kv.1) then
    acc.map (fun p => if p.1 == kv.1 then (p.1, p.2 ++ [kv.2]) else p)
  else acc ++ [(kv.1, [kv.2])]

/-- `urllib.parse.parse_qs`: group the `parse_qsl` pairs into an
insertion-ordered dict of value lists. -/
def parse_qs (q : String) : List (String × List String) :=
  (parseQsl q).foldl addParam []

/-- Python `dict.update` for one key: overwrite the value in place when the
key exists (keeping its position), else append the key at the end. -/
def dictUpdate (ps : List (String × List String)) (k : String) (v : List String) :
    List (String × List String) :=
  if ps.any (fun p => p.1 == k) then
    ps.map (fun p => if p.1 == k then (k, v) else p)
  else ps ++ [(k, v)]

/-- `"true" if b else "false"`. -/
def pyBoolStr (b : Bool) : String := if b then "true" else "false"

/-- The `params.update({"interactive": [...], "embed": [...]})` step of
`encode_url` (dict literals are evaluated in order: `interactive`, then
`embed`). -/
def updateParams (ps : List (String × List String)) (interactive embed : Bool) :
    List (String × List String) :=
  dictUpdate (dictUpdate ps "interactive" [pyBoolStr interactive]) "embed" [pyBoolStr embed]

/-- `urllib.parse.urlencode(params, doseq=True)` with the default
`quote_via=quote_plus`: one `k=v` field per list element, joined with `&`. -/
def urlencodeDoseq (ps : List (String × List String)) : String :=
  joinAmp ((ps.map (fun p => p.2.map (fun v => quotePlus p.1 ++ "=" ++ quotePlus v))).flatten)

/-- The components of `urllib.parse.urlparse` used by `encode_url`.  The
`params` component (split off the last path segment at `;`) is left inside
`path`: `encode_url` replaces only `query`, and `urlunparse` reassembles
`path;params` unchanged, so keeping them joined is extensionally identical. -/
structure ParsedUrl where
  scheme : String
  netloc : String
  path : String
  query : String
  fragment : String
deriving DecidableEq, Repr

/-- A character allowed in a URL scheme after the first (letters, digits,
`+-.`). -/
def isSchemeChar (c : Char) : Bool :=
  decide (('A' ≤ c ∧ c ≤ 'Z') ∨ ('a' ≤ c ∧ c ≤ 'z') ∨ ('0' ≤ c ∧ c ≤ '9')
    ∨ c = '+' ∨ c = '-' ∨ c = '.')

/-- An ASCII letter. -/
def isAlphaChar (c : Char) : Bool := decide (('A' ≤ c ∧ c ≤ 'Z') ∨ ('a' ≤ c ∧ c ≤ 'z'))

/-- ASCII lowercasing (schemes are lowercased by `urlsplit`). -/
def asciiLower (s : String) : String :=
  ⟨s.data.map (fun c => if decide ('A' ≤ c ∧ c ≤ 'Z') then Char.ofNat (c.toNat + 32) else c)⟩

/-- The scheme split of `urllib.parse.urlsplit`: a non-empty valid scheme
before the first `:` is lowercased and stripped; otherwise there is no
scheme. -/
def splitScheme (url : String) : String × String :=
  match splitFirst ':' url.data with
  | some (l, r) =>
      match l with
      | [] => ("", url)
      | c0 :: cs =>
          if isAlphaChar c0 && cs.all isSchemeChar then (asciiLower ⟨l⟩, ⟨r⟩)
          else ("", url)
  | none => ("", url)

/-- The netloc: characters up to the first `/`, `?`, or `#`. -/
def takeNetloc : List Char → List Char × List Char
  | [] => ([], [])
  | c :: rest =>
      if c = '/' ∨ c = '?' ∨ c = '#' then ([], c :: rest)
      else
        let p := takeNetloc rest
        (c :: p.1, p.2)

/-- `urllib.parse.urlparse` (with `params` kept inside `path`; see
`ParsedUrl`): scheme split, `//netloc` split, fragment split at the first `#`,
then query split at the first `?`. -/
def urlparseModel (url : String) : ParsedUrl :=
  let sp := splitScheme url
  let scheme := sp.1
  let nl : String × String :=
    match sp.2.data with
    | '/' :: '/' :: tail =>
        let p := takeNetloc tail
        (⟨p.1⟩, ⟨p.2⟩)
    | _ => ("", sp.2)
  let fr : String × String :=
    match splitFirst '#' nl.2.data with
    | some (l, r) => (⟨l⟩, ⟨r⟩)
    | none => (nl.2, "")
  let pq : String × String :=
    match splitFirst '?' fr.1.data with
    | some (l, r) => (⟨l⟩, ⟨r⟩)
    | none => (fr.1, "")
  ⟨scheme, nl.1, pq.1, pq.2, fr.2⟩

/-- `urllib.parse.urlunparse` on such components. -/
def urlunparseModel (u : ParsedUrl) : String :=
  let url := u.path
  let url := if u.netloc ≠ "" ∨ strStartsWith url "//" then
      "//" ++ u.netloc ++ (if url ≠ "" ∧ ¬ strStartsWith url "/" then "/" ++ url else url)
    else url
  let url := if u.scheme ≠ "" then u.scheme ++ ":" ++ url else url
  let url := if u.query ≠ "" then url ++ "?" ++ u.query else url
  if u.fragment ≠ "" then url ++ "#" ++ u.fragment else url

/-- `encode_url` (`_utils.py` lines 13-22): parse the URL, parse its query with
`parse_qs`, `update` the dict with the `interactive` and `embed` flags as
lowercase boolean strings, re-encode with `urlencode(..., doseq=True)`, and
unparse. -/
def encode_url (url : String) (interactive embed : Bool) : String :=
  let p := urlparseModel url
  let params := updateParams (parse_qs p.query) interactive embed
  urlunparseModel { p with query := urlencodeDoseq params }

/-- Dict lookup in a grouped-parameters list. -/
def lookupParam (ps : List (String × List String)) (k : String) : Option (List String) :=
  (ps.find? (fun p => p.1 == k)).map (·.2)

/-- The keys of a grouped-parameters list, in order. -/
def paramKeys (ps : List (String × List String)) : List String := ps.map (·.1)

/-! ## `live_url` (`_interface.py` lines 100-113) -/

/-- Truthiness of `self._task_response and self._task_response.live_url`: the
available live URL, when the snapshot exists and the field is a non-empty
string. -/
def liveAvailable : Option TaskResponse → Option String
  | some r =>
      match r.live_url with
      | some u => if u = "" then none else some u
      | none => none
  | none => none

/-- Outcome of `live_url`: the encoded URL, the `TimeoutError` naming the task
id, or fuel exhaustion (standing for a run longer than the supplied fuel — in
particular the `timeout=None` loop, which the method never exits by itself).
There is no bad-request constructor because the method has no such path. -/
inductive LiveUrlOutcome
  | okUrl (u : String)
  | timeoutErrLive (taskId : String)
  | outOfFuelLive
deriving DecidableEq, Repr

/-- The `while` loop of `live_url` (lines 107-111), followed by the
`raise TimeoutError(...)` after the `async with` block (line 113). -/
def liveUrlLoop (snap : Nat → Option TaskResponse) (tid : String)
    (interactive embed : Bool) (timeout : Option Int) : Nat → Nat → LiveUrlOutcome
  | 0, _ => .outOfFuelLive
  | fuel + 1, k =>
    if withinDeadline timeout k then
      match liveAvailable (snap k) with
      | some u => .okUrl (encode_url u interactive embed)
      | none => liveUrlLoop snap tid interactive embed timeout fuel (k + 1)
    else .timeoutErrLive tid

/-- A run of `live_url`: outcome plus whether `_connection()` was entered. -/
structure LiveUrlRun where
  outcome : LiveUrlOutcome
  connected : Bool
deriving DecidableEq, Repr

/-- `AsyncTaskHandle.live_url`: fast path on a truthy cached `live_url`, else
connect and wait; when the deadline passes the method raises `TimeoutError`
regardless of the task's status. -/
def liveUrlModel (cached : Option TaskResponse) (interactive embed : Bool)
    (timeout : Option Int) (snap : Nat → Option TaskResponse) (tid : String)
    (fuel : Nat) : LiveUrlRun :=
  match liveAvailable cached with
  | some u => ⟨.okUrl (encode_url u interactive embed), false⟩
  | none => ⟨liveUrlLoop snap tid interactive embed timeout fuel 0, true⟩

/-! ## `recording_url` (`_interface.py` lines 115-138) -/

/-- Outcome of `recording_url`: the URL, the 404 `ApiError` carrying its
detail message, the `BadRequestError`, the `TimeoutError`, or fuel
exhaustion. -/
inductive RecUrlOutcome
  | okRec (u : String)
  | apiError404 (detail : String)
  | badRequest (msg : String)
  | timeoutErrRec (msg : String)
  | outOfFuelRec
deriving DecidableEq, Repr

/-- The detail of the 404 `ApiError` raised when the snapshot reports an empty
recording URL (lines 126-132). -/
def recordingNotEnabledDetail (tid : String) : String :=
  "Recording URL not available for task " ++ tid ++
    ". Set `enable_recording=True` when creating the task to enable it."

/-- Whether a snapshot keeps the `recording_url` loop waiting: snapshot absent
or field absent. -/
def recWaiting : Option TaskResponse → Bool
  | some r => r.recording_url.isNone
  | none => true

/-- The `while` loop of `recording_url` (lines 122-134) and the checks after it
(lines 136-138): inside the loop a populated field returns (or raises the 404
`ApiError` when it is the empty string); after the deadline, a still-active
status raises `BadRequestError`, anything else `TimeoutError`. -/
def recordingLoop (snap : Nat → Option TaskResponse) (tid : String) (timeout : Option Int) :
    Nat → Nat → RecUrlOutcome
  | 0, _ => .outOfFuelRec
  | fuel + 1, k =>
    if withinDeadline timeout k then
      match snap k with
      | some r =>
          match r.recording_url with
          | some u =>
              if u = "" then .apiError404 (recordingNotEnabledDetail tid)
              else .okRec u
          | none => recordingLoop snap tid timeout fuel (k + 1)
      | none => recordingLoop snap tid timeout fuel (k + 1)
    else
      match snap k with
      | some r =>
          if r.status.isActive then
            .badRequest ("Recording URL not available for task " ++ tid
              ++ " while it is still running.")
          else .timeoutErrRec ("Recording URL not available for task " ++ tid ++ ".")
      | none => .timeoutErrRec ("Recording URL not available for task " ++ tid ++ ".")

/-- A run of `recording_url`: outcome plus whether `_connection()` was
entered. -/
structure RecUrlRun where
  outcome : RecUrlOutcome
  connected : Bool
deriving DecidableEq, Repr

/-- `AsyncTaskHandle.recording_url`: the fast path (lines 117-118) returns the
cached `recording_url` whenever the field is not `None` — including when it is
the empty string — and only otherwise connects and runs the waiting loop. -/
def recordingUrlModel (cached : Option TaskResponse) (timeout : Option Int)
    (snap : Nat → Option TaskResponse) (tid : String) (fuel : Nat) : RecUrlRun :=
  match cached with
  | some r =>
      match r.recording_url with
      | some u => ⟨.okRec u, false⟩
      | none => ⟨recordingLoop snap tid timeout fuel 0, true⟩
  | none => ⟨recordingLoop snap tid timeout fuel 0, true⟩

/-! ## `AsyncSessionHandle.close` (`_interface.py` lines 360-372) -/

/-- The observable effects of one `close(force)` call: whether `_delete_task`
was invoked; the `name` and payload `name` of the event passed to
`_send_event`, if any; whether a correlated reply was registered and awaited
(`_send_event`'s `has_result` flag — `close` passes `has_result=False`); and
whether `_disconnect` ran. -/
structure CloseEffects where
  deletedTask : Bool
  sentEventName : Option String
  sentEventPayloadName : Option String
  awaitedReply : Bool
  disconnected : Bool
deriving DecidableEq, Repr

/-- `AsyncSessionHandle.close`: `force=True` deletes the task via the client;
otherwise an event with `name="browser_action"` and payload name `"close"` is
sent with `has_result=False` — no correlation future is created, no reply is
awaited, and there is no special handling for a stopped Poller; both branches
end with `_disconnect()`. -/
def closeModel (force : Bool) : CloseEffects :=
  if force then ⟨true, none, none, false, true⟩
  else ⟨false, some "browser_action", some "close", false, true⟩

/-! ## Theorems -/

theorem connInvariant_init : ConnInvariant ConnState.init := by
  constructor <;> simp [ConnState.init]

theorem connInvariant_step (s : ConnState) (op : ConnOp)
    (h : ConnInvariant s) : ConnInvariant (applyConnOp s op) := by
  obtain ⟨n, p⟩ := s
  obtain ⟨h0, hp⟩ := h
  simp only at h0 hp
  cases op <;> cases p <;>
    simp only [applyConnOp, connect, disconnect] <;>
    (try split) <;> (try split) <;>
    simp_all [ConnInvariant] <;>
    omega

theorem connInvariant_runOps (ops : List ConnOp) : ConnInvariant (runConnOps ops) := by
  suffices h : ∀ s, ConnInvariant s → ConnInvariant (ops.foldl applyConnOp s) from
    h ConnState.init connInvariant_init
  induction ops with
  | nil => exact fun s hs => hs
  | cons op rest ih => exact fun s hs => ih _ (connInvariant_step s op hs)

theorem connect_disconnect_transitions (s : ConnState) (h : ConnInvariant s) :
    ((connect s).2 = true ↔ s.is_alive = 0)
    ∧ ((connect s).2 = true → (connect s).1.pollerRunning = true)
    ∧ ((disconnect s).2 = true ↔ (s.is_alive = 1 ∧ s.pollerRunning = true)) := by
  obtain ⟨n, p⟩ := s
  obtain ⟨h0, hp⟩ := h
  simp only at h0 hp
  refine ⟨?_, ?_, ?_⟩ <;>
    cases p <;>
    simp only [connect, disconnect] <;>
    split_ifs <;>
    simp_all <;>
    omega

/-- **C1 counterexample**: the Poller can stop while the count is positive, so
the claimed "Poller running iff count > 0" biconditional is false.  `_poller`
raises `RuntimeError("Task is not running.")` the moment a fetched snapshot is
terminal (`_interface.py` line 255), ending the polling task with `_is_alive`
untouched: after `connect; poller self-stop` the state has count 1 and no
running Poller.  `live_url(timeout=None)` on an already-terminal task (the C5
scenario) realizes exactly this — it waits forever holding one connection with
a dead Poller. -/
theorem claim_C1_counterexample :
    runConnOps [ConnOp.connectOp, ConnOp.pollerSelfStopOp] = ⟨1, false⟩
    ∧ ¬((runConnOps [ConnOp.connectOp, ConnOp.pollerSelfStopOp]).pollerRunning = true
        ↔ 0 < (runConnOps [ConnOp.connectOp, ConnOp.pollerSelfStopOp]).is_alive) := by
  decide

/-- **C1 (amended)**: after any sequence of connection events (`_connect`,
`_disconnect`, Poller self-stop on a terminal snapshot) from construction: the
connection count is never negative; the Poller is running only if the count is
positive (the converse fails — the self-stop leaves the count untouched); a
further `_connect` launches the Poller iff the count was 0 — it is never
relaunched while the count stays positive — and whenever it launches the
Poller is running afterwards; and a further `_disconnect` cancels the Poller
iff it brings the count from 1 to 0 while the Poller is still running. -/
theorem claim_C1_connection_refcount (ops : List ConnOp) :
    0 ≤ (runConnOps ops).is_alive
    ∧ ((runConnOps ops).pollerRunning = true → 0 < (runConnOps ops).is_alive)
    ∧ ((connect (runConnOps ops)).2 = true ↔ (runConnOps ops).is_alive = 0)
    ∧ ((connect (runConnOps ops)).2 = true →
        (connect (runConnOps ops)).1.pollerRunning = true)
    ∧ ((disconnect (runConnOps ops)).2 = true
        ↔ ((runConnOps ops).is_alive = 1 ∧ (runConnOps ops).pollerRunning = true)) :=
  ⟨(connInvariant_runOps ops).1, (connInvariant_runOps ops).2,
   (connect_disconnect_transitions _ (connInvariant_runOps ops)).1,
   (connect_disconnect_transitions _ (connInvariant_runOps ops)).2.1,
   (connect_disconnect_transitions _ (connInvariant_runOps ops)).2.2⟩

/-- **C1 (amended) witness**: on a fresh handle the first `_connect` launches
the Poller and leaves it running. -/
theorem claim_C1_connection_refcount_witness :
    (connect (runConnOps [])).2 = true
    ∧ (connect (runConnOps [])).1.pollerRunning = true :=
  ⟨by decide, (claim_C1_connection_refcount []).2.2.2.1 (by decide)⟩

theorem find?_map_of_key {α : Type} (g : String × α → String × α)
    (hg : ∀ p, (g p).1 = p.1) (l : List (String × α)) (i : String) :
    (l.map g).find? (fun p => p.1 == i) = (l.find? (fun p => p.1 == i)).map g := by
  induction l with
  | nil => rfl
  | cons hd tl ih =>
    cases hb : (hd.1 == i) <;>
      simp only [List.map_cons, List.find?_cons, hg, hb] <;>
      simp [ih]

theorem lookupFut_setFut_self (s : CorrelationState) (i : String) (f f0 : FutureState)
    (h : lookupFut s i = some f0) : lookupFut (setFut s i f) i = some f := by
  unfold lookupFut setFut at *
  rw [find?_map_of_key]
  · obtain ⟨q, hq, -⟩ := Option.map_eq_some'.mp h
    have hqi := List.find?_some hq
    simp only at hqi
    have hqi' : q.1 = i := eq_of_beq hqi
    simp [hq, hqi']
  · intro p
    by_cases hp : (p.1 == i) = true <;> simp [hp]

theorem lookupFut_cleanup_not_in_table (s : CorrelationState) (i : String) (f : FutureState)
    (h : lookupFut s i = some f) (hni : i ∉ s.tableIds) :
    lookupFut (pollerStopCleanup s) i = some f := by
  unfold lookupFut pollerStopCleanup at *
  rw [find?_map_of_key]
  · obtain ⟨q, hq, hq2⟩ := Option.map_eq_some'.mp h
    have hqi := List.find?_some hq
    simp only at hqi
    have hqi' : q.1 = i := eq_of_beq hqi
    rw [hq]
    simp only [Option.map_some']
    rw [if_neg (by rw [hqi']; exact fun hc => hni hc.1)]
    exact congrArg some hq2
  · intro p
    by_cases hp : p.1 ∈ s.tableIds ∧ p.2.isDone = false <;> simp [hp]

theorem not_mem_erase_self (l : List String) (i : String) (h : l.Nodup) :
    i ∉ l.erase i := by
  intro hmem
  rw [List.Nodup.mem_erase_iff h] at hmem
  exact hmem.1 rfl

theorem processReplyEvent_skip (t : CorrelationState) (ev : TaskEvent) (i : String)
    (hid : ev.eventId = some i) (hni : i ∉ t.tableIds) :
    processReplyEvent t ev = t := by
  have htg : tableGet t i = none := by unfold tableGet; rw [if_neg hni]
  simp [processReplyEvent, processReplyEventAt, hid, htg]

/-- **C2**: a polled `browser_action` reply whose id matches a registered
pending correlation is fulfilled exactly once — 200 resolves with the payload
output, 400 rejects with a `ToolCallError`, 500 rejects with a `RuntimeError`,
the default message being "Unknown error." — and the entry is removed from
`_event_futures`, so any later reply event with the same id leaves the state
entirely unchanged (no double resolution, no exception). -/
theorem claim_C2_correlation_fulfillment
    (s : CorrelationState) (i : String) (c : Int) (out pn : Option String) (ts : Option Int)
    (hnd : s.tableIds.Nodup)
    (hin : i ∈ s.tableIds)
    (hpend : lookupFut s i = some .pending)
    (hc : c = 200 ∨ c = 400 ∨ c = 500) :
    lookupFut (processReplyEvent s ⟨some i, "browser_action", pn, some c, out, ts⟩) i
      = some (replyFulfillment c out)
    ∧ i ∉ (processReplyEvent s ⟨some i, "browser_action", pn, some c, out, ts⟩).tableIds
    ∧ ∀ ev₂ : TaskEvent, ev₂.eventId = some i →
        processReplyEvent (processReplyEvent s ⟨some i, "browser_action", pn, some c, out, ts⟩) ev₂
          = processReplyEvent s ⟨some i, "browser_action", pn, some c, out, ts⟩ := by
  have htg : tableGet s i = some FutureState.pending := by
    unfold tableGet; rw [if_pos hin, hpend]
  have hstep : processReplyEvent s ⟨some i, "browser_action", pn, some c, out, ts⟩
      = setFut { s with tableIds := s.tableIds.erase i } i (replyFulfillment c out) := by
    rcases hc with hc | hc | hc <;> subst hc <;>
      simp [processReplyEvent, processReplyEventAt, htg, FutureState.isDone, replyFulfillment]
  have htbl : (processReplyEvent s ⟨some i, "browser_action", pn, some c, out, ts⟩).tableIds
      = s.tableIds.erase i := by rw [hstep]; rfl
  have hni : i ∉ (processReplyEvent s ⟨some i, "browser_action", pn, some c, out, ts⟩).tableIds := by
    rw [htbl]; exact not_mem_erase_self _ _ hnd
  refine ⟨?_, hni, ?_⟩
  · rw [hstep]
    exact lookupFut_setFut_self _ _ _ _ hpend
  · intro ev₂ hid
    exact processReplyEvent_skip _ ev₂ i hid hni

/-- **C2 witness**: a concrete pending correlation for id `"e1"` fulfilled by a
`code = 200` reply. -/
theorem claim_C2_correlation_fulfillment_witness :
    (["e1"] : List String).Nodup
    ∧ lookupFut (processReplyEvent ⟨[("e1", .pending)], ["e1"]⟩
        ⟨some "e1", "browser_action", none, some 200, some "ok", none⟩) "e1"
      = some (.resolvedOutput (some "ok")) :=
  ⟨by decide,
   (claim_C2_correlation_fulfillment ⟨[("e1", .pending)], ["e1"]⟩ "e1" 200 (some "ok") none none
      (by decide) (by decide) (by decide) (Or.inl rfl)).1⟩

/-- **C10 counterexample**: a registered pending correlation for id `"e1"` hit
by a reply with unknown code 999 is removed from `_event_futures` without being
fulfilled, and — because the entry was already popped — the Poller's stop
cleanup does not cancel it either: the future is still pending after
`pollerStopCleanup`, so the caller awaiting it is never released by the Poller,
contrary to the claim that it is released when the Poller stops and cancels the
remaining pending futures. -/
theorem claim_C10_counterexample :
    processReplyEvent ⟨[("e1", FutureState.pending)], ["e1"]⟩
        ⟨some "e1", "browser_action", none, some 999, none, none⟩
      = ⟨[("e1", FutureState.pending)], []⟩
    ∧ pollerStopCleanup ⟨[("e1", FutureState.pending)], []⟩
      = ⟨[("e1", FutureState.pending)], []⟩ := by decide

/-- **C10 (amended)**: a polled `browser_action` reply whose id matches a
registered pending correlation but whose code is none of 200/400/500 removes
the entry from `_event_futures` without fulfilling the future; since the entry
is no longer in the table, the Poller's stop-time cleanup (which cancels only
futures still registered there) leaves it pending as well, so the caller
awaiting that correlation never receives a value, a typed error, or a
cancellation from the Poller. -/
theorem claim_C10_unknown_code_correlation
    (s : CorrelationState) (i : String) (c : Int) (out pn : Option String) (ts : Option Int)
    (hnd : s.tableIds.Nodup)
    (hin : i ∈ s.tableIds)
    (hpend : lookupFut s i = some .pending)
    (hc : ¬(c = 200 ∨ c = 400 ∨ c = 500)) :
    i ∉ (processReplyEvent s ⟨some i, "browser_action", pn, some c, out, ts⟩).tableIds
    ∧ lookupFut (processReplyEvent s ⟨some i, "browser_action", pn, some c, out, ts⟩) i
        = some .pending
    ∧ lookupFut (pollerStopCleanup
          (processReplyEvent s ⟨some i, "browser_action", pn, some c, out, ts⟩)) i
        = some .pending := by
  push_neg at hc
  obtain ⟨h200, h400, h500⟩ := hc
  have htg : tableGet s i = some FutureState.pending := by
    unfold tableGet; rw [if_pos hin, hpend]
  have hstep : processReplyEvent s ⟨some i, "browser_action", pn, some c, out, ts⟩
      = { s with tableIds := s.tableIds.erase i } := by
    simp [processReplyEvent, processReplyEventAt, htg, FutureState.isDone, h200, h400, h500]
  rw [hstep]
  refine ⟨not_mem_erase_self _ _ hnd, hpend, ?_⟩
  exact lookupFut_cleanup_not_in_table _ _ _ hpend (not_mem_erase_self _ _ hnd)

/-- **C10 (amended) witness**: the concrete unknown-code reply of the
counterexample, run through the amended theorem. -/
theorem claim_C10_unknown_code_correlation_witness :
    ¬((999 : Int) = 200 ∨ (999 : Int) = 400 ∨ (999 : Int) = 500)
    ∧ lookupFut (pollerStopCleanup (processReplyEvent ⟨[("e1", FutureState.pending)], ["e1"]⟩
        ⟨some "e1", "browser_action", none, some 999, none, none⟩)) "e1"
      = some .pending :=
  ⟨by decide,
   (claim_C10_unknown_code_correlation ⟨[("e1", FutureState.pending)], ["e1"]⟩ "e1" 999 none none
      none (by decide) (by decide) (by decide) (by decide)).2.2⟩

theorem applyToolTasksOp_preserves (dict : List (String × ToolTaskState)) (op : ToolTasksOp)
    (h : ∀ p ∈ dict, p.2 = ToolTaskState.runningTask) :
    ∀ p ∈ applyToolTasksOp dict op, p.2 = ToolTaskState.runningTask := by
  cases op with
  | scheduleOp i =>
    intro p hp
    simp only [applyToolTasksOp] at hp
    split at hp
    · obtain ⟨q, hq, hqe⟩ := List.mem_map.mp hp
      by_cases hqi : (q.1 == i) = true
      · rw [if_pos hqi] at hqe; rw [← hqe]
      · rw [if_neg hqi] at hqe; rw [← hqe]; exact h q hq
    · rcases List.mem_append.mp hp with hin | hin
      · exact h p hin
      · simp only [List.mem_singleton] at hin
        rw [hin]
  | finishOp i =>
    intro p hp
    exact h p (List.mem_of_mem_eraseP hp)
  | clearOp =>
    intro p hp
    simp [applyToolTasksOp] at hp

theorem toolTasks_all_running (ops : List ToolTasksOp) :
    ∀ p ∈ runToolTasksOps ops, p.2 = ToolTaskState.runningTask := by
  suffices h : ∀ dict : List (String × ToolTaskState),
      (∀ p ∈ dict, p.2 = ToolTaskState.runningTask) →
      ∀ p ∈ ops.foldl applyToolTasksOp dict, p.2 = ToolTaskState.runningTask from
    h [] (by intro p hp; simp at hp)
  induction ops with
  | nil => exact fun dict h => h
  | cons op rest ih =>
    exact fun dict h => ih _ (applyToolTasksOp_preserves dict op h)

theorem reap_none_of_all_running (dict : List (String × ToolTaskState))
    (h : ∀ p ∈ dict, p.2 = ToolTaskState.runningTask) :
    reapToolTasks dict = none := by
  induction dict with
  | nil => rfl
  | cons hd tl ih =>
    obtain ⟨i, st⟩ := hd
    have hhd := h (i, st) (by simp)
    simp only at hhd
    subst hhd
    simp only [reapToolTasks]
    exact ih (fun p hp => h p (by simp [hp]))

/-- **C3 (amended)**: a registered custom tool whose wrapped function raises a
non-`ToolCallError` exception causes `__call__` to send a reply with code 500
when the tool is essential and 400 when it is not, with output equal to the
configured `error_message` when a non-empty one was given and the exception's
message otherwise; when essential, the exception is re-raised out of the tool
coroutine — but it does not propagate out of the Poller's in-flight-tool-task
reaping step: `_run_tool`'s `finally` pops the entry from `_tool_tasks` while
the coroutine unwinds, before the task is marked done, so every reachable
`_tool_tasks` dict contains only still-running tasks and the reap
`if task.done(): await task` re-raises nothing; the Poller keeps running and
the failure is not observable to a caller waiting on `result()` (see the
counterexample).  A non-essential tool's exception is not re-raised at all. -/
theorem claim_C3_essential_tool_failure
    (essential : Bool) (error_message : Option String) (event_id : String) (m : String)
    (ops : List ToolTasksOp) :
    (toolCall essential error_message event_id (.error (.otherExc m))).1
      = ⟨event_id, "tool_call", if essential then 500 else 400,
         some (pyOrElse error_message m)⟩
    ∧ (toolCall essential error_message event_id (.error (.otherExc m))).2
      = (if essential then some (.otherExc m) else none)
    ∧ reapToolTasks (runToolTasksOps ops) = none :=
  ⟨rfl, rfl, reap_none_of_all_running _ (toolTasks_all_running ops)⟩

theorem withinDeadline_mono (timeout : Option Int) (j k : Nat) (hjk : j ≤ k)
    (h : withinDeadline timeout k = true) : withinDeadline timeout j = true := by
  cases timeout with
  | none => rfl
  | some t =>
    simp only [withinDeadline, decide_eq_true_eq] at h ⊢
    omega

theorem resultLoop_ok (snap : Nat → Option TaskResponse) (tid : String) (timeout : Option Int)
    (r : TaskResponse) (hr : r.status.isActive = false) :
    ∀ (k fuel start : Nat),
      (∀ j, j < k → snapActive (snap (start + j)) = true) →
      snap (start + k) = some r →
      withinDeadline timeout (start + k) = true →
      k < fuel →
      resultLoop snap tid timeout fuel start = .ok r := by
  intro k
  induction k with
  | zero =>
    intro fuel start hact hsnap hwithin hfuel
    obtain ⟨fuel, rfl⟩ : ∃ f, fuel = f + 1 := ⟨fuel - 1, by omega⟩
    rw [Nat.add_zero] at hsnap hwithin
    rw [resultLoop, if_pos hwithin, hsnap]
    simp [hr]
  | succ k ih =>
    intro fuel start hact hsnap hwithin hfuel
    obtain ⟨fuel, rfl⟩ : ∃ f, fuel = f + 1 := ⟨fuel - 1, by omega⟩
    have hw0 : withinDeadline timeout start = true :=
      withinDeadline_mono timeout start (start + (k + 1)) (by omega) hwithin
    have heq : start + 1 + k = start + (k + 1) := by omega
    have hrec : resultLoop snap tid timeout fuel (start + 1) = .ok r := by
      apply ih fuel (start + 1)
      · intro j hj
        have h1 := hact (j + 1) (by omega)
        have heq2 : start + 1 + j = start + (j + 1) := by omega
        rw [heq2]; exact h1
      · rw [heq]; exact hsnap
      · rw [heq]; exact hwithin
      · omega
    have ha0 : snapActive (snap start) = true := by
      have h0 := hact 0 (by omega)
      rw [Nat.add_zero] at h0
      exact h0
    rw [resultLoop, if_pos hw0]
    cases hs : snap start with
    | none => exact hrec
    | some r0 =>
      have hr0 : r0.status.isActive = true := by
        rw [hs] at ha0; simpa [snapActive] using ha0
      simp [hr0, hrec]

theorem resultLoop_timeout (snap : Nat → Option TaskResponse) (tid : String) (t : Int)
    (hall : ∀ j, snapActive (snap j) = true) :
    ∀ (fuel start : Nat), 5 * t - (start : Int) < fuel → 1 ≤ fuel →
      resultLoop snap tid (some t) fuel start = .timeoutErr tid := by
  intro fuel
  induction fuel with
  | zero => intro start h h1; exact absurd h1 (by omega)
  | succ fuel ih =>
    intro start h h1
    rw [resultLoop]
    by_cases hw : withinDeadline (some t) start = true
    · rw [if_pos hw]
      have hlt : (start : Int) < 5 * t := by
        simpa [withinDeadline, decide_eq_true_eq] using hw
      have hrec := ih (start + 1) (by push_cast; omega) (by omega)
      cases hs : snap start with
      | none => exact hrec
      | some r0 =>
        have hr0 : r0.status.isActive = true := by
          have h2 := hall start; rw [hs] at h2; simpa [snapActive] using h2
        simp [hr0, hrec]
    · rw [if_neg hw]

/-- **C4**: `result` (i) returns the cached snapshot immediately — without
connecting, hence without any network call — when it is already terminal;
otherwise, with a valid timeout, it connects and repeatedly checks the
snapshot, (ii) returning the first snapshot whose status is terminal if one
appears within the deadline, and (iii) raising a `TimeoutError` (after
disconnecting, in the context manager's `finally`) if every check up to the
deadline sees a non-terminal snapshot. -/
theorem claim_C4_result_behaviour
    (cached : Option TaskResponse) (timeout : Option Int)
    (snap : Nat → Option TaskResponse) (tid : String) (fuel : Nat) :
    (∀ r, cached = some r → r.status.isActive = false →
      resultModel cached timeout snap tid fuel = ⟨.ok r, false⟩)
    ∧ (∀ k r, cachedTerminal cached = false → resultTimeoutInvalid timeout = false →
        (∀ j, j < k → snapActive (snap j) = true) →
        snap k = some r → r.status.isActive = false →
        withinDeadline timeout k = true → k < fuel →
        resultModel cached timeout snap tid fuel = ⟨.ok r, true⟩)
    ∧ (∀ t, timeout = some t → cachedTerminal cached = false →
        resultTimeoutInvalid timeout = false →
        (∀ j, snapActive (snap j) = true) →
        5 * t < fuel → 1 ≤ fuel →
        resultModel cached timeout snap tid fuel = ⟨.timeoutErr tid, true⟩) := by
  have hloop : ∀ (o : ResultOutcome), cachedTerminal cached = false →
      resultTimeoutInvalid timeout = false →
      resultLoop snap tid timeout fuel 0 = o →
      resultModel cached timeout snap tid fuel = ⟨o, true⟩ := by
    intro o hct hti hl
    cases cached with
    | none => simp [resultModel, hti, hl]
    | some r =>
      have hr : r.status.isActive = true := by
        simpa [cachedTerminal] using hct
      simp [resultModel, hr, hti, hl]
  refine ⟨?_, ?_, ?_⟩
  · intro r hcr hr
    subst hcr
    simp [resultModel, hr]
  · intro k r hct hti hact hsnap hr hwithin hfuel
    refine hloop _ hct hti ?_
    have := resultLoop_ok snap tid timeout r hr k fuel 0
      (by intro j hj; simpa using hact j hj) (by simpa using hsnap)
      (by simpa using hwithin) hfuel
    exact this
  · intro t htv hct hti hall hfuel h1
    subst htv
    refine hloop _ hct hti ?_
    exact resultLoop_timeout snap tid t hall fuel 0 (by push_cast; omega) h1

/-- **C4 witness**: the three branches at concrete inputs — a cached `done`
snapshot returned without connecting; a run whose third check sees a `done`
snapshot; a run that only ever sees `running` and times out after `timeout = 1`. -/
theorem claim_C4_result_behaviour_witness :
    resultModel (some ⟨"t-1", .done, some "x", none, none, none⟩) none
        (fun _ => none) "t-1" 1
      = ⟨.ok ⟨"t-1", .done, some "x", none, none, none⟩, false⟩
    ∧ resultModel (some ⟨"t-1", .running, none, none, none, none⟩) (some 5)
        (fun k => if k < 2 then some ⟨"t-1", .running, none, none, none, none⟩
                  else some ⟨"t-1", .done, some "final", none, none, none⟩) "t-1" 10
      = ⟨.ok ⟨"t-1", .done, some "final", none, none, none⟩, true⟩
    ∧ resultModel none (some 1)
        (fun _ => some ⟨"t-1", .running, none, none, none, none⟩) "t-1" 6
      = ⟨.timeoutErr "t-1", true⟩ :=
  ⟨(claim_C4_result_behaviour _ none _ "t-1" 1).1 _ rfl (by decide),
   (claim_C4_result_behaviour _ (some 5) _ "t-1" 10).2.1 2
      ⟨"t-1", .done, some "final", none, none, none⟩ (by decide) (by decide)
      (by intro j hj; interval_cases j <;> decide)
      (by decide) (by decide) (by decide) (by decide),
   (claim_C4_result_behaviour none (some 1) _ "t-1" 6).2.2 1 rfl (by decide) (by decide)
      (fun j => by decide) (by decide) (by decide)⟩

/-- **C6 counterexample**: `result(timeout=0)` on a handle whose cached
snapshot is already terminal returns the snapshot through the fast path and
raises no validation error at all — the terminal-snapshot check precedes the
timeout validation — refuting "for every timeout value < 1, `result(timeout)`
fails with a local validation error". -/
theorem claim_C6_counterexample :
    resultModel (some ⟨"t-1", .done, some "out", none, none, none⟩) (some 0)
        (fun _ => none) "t-1" 10
      = ⟨.ok ⟨"t-1", .done, some "out", none, none, none⟩, false⟩ := rfl

/-- **C6 (amended)**: for every timeout < 1, if the cached snapshot is absent
or still active, `result` raises the `ValueError` before connecting — hence
before any Transport call and before any suspension point; when the cached
snapshot is already terminal the fast path returns it first and no validation
occurs. -/
theorem claim_C6_timeout_validation
    (cached : Option TaskResponse) (t : Int) (snap : Nat → Option TaskResponse)
    (tid : String) (fuel : Nat)
    (ht : t < 1) (hnt : cachedTerminal cached = false) :
    resultModel cached (some t) snap tid fuel = ⟨.invalidTimeout, false⟩ := by
  cases cached with
  | none => simp [resultModel, resultTimeoutInvalid, ht]
  | some r =>
    have hr : r.status.isActive = true := by simpa [cachedTerminal] using hnt
    simp [resultModel, resultTimeoutInvalid, hr, ht]

/-- **C6 (amended) witness**: `result(timeout=0)` with no cached snapshot
raises the validation error without connecting. -/
theorem claim_C6_timeout_validation_witness :
    (0 : Int) < 1
    ∧ resultModel none (some 0) (fun _ => none) "t-1" 10 = ⟨.invalidTimeout, false⟩ :=
  ⟨by decide, claim_C6_timeout_validation none 0 (fun _ => none) "t-1" 10 (by decide) (by decide)⟩

/-- **C3 counterexample**: the essential exception neither propagates out of
the reaping step nor reaches `result()`.  The essential tool handling event
`"e1"` raises `RuntimeError("boom")`: `__call__` re-raises it, but `_run_tool`
pops `"e1"` from `_tool_tasks` as the coroutine unwinds (line 239), before the
task is marked done, so the dict is empty by the time the Poller reaps and the
reaping step re-raises nothing — the Poller loop is not terminated.  A caller
in `result(timeout=1)` obtains the plain `TimeoutError "t-1"`, and no
constructor of `ResultOutcome` (the faithful outcome type of `result`, which
never awaits tool or polling tasks) carries an exception; this refutes the
claim that the exception "propagates out of the Poller's in-flight-tool-task
reaping step so that the failure is observable to a caller waiting on
result()". -/
theorem claim_C3_counterexample :
    (toolCall true none "e1" (.error (.otherExc "boom"))).2 = some (.otherExc "boom")
    ∧ runToolTasksOps [ToolTasksOp.scheduleOp "e1", ToolTasksOp.finishOp "e1"] = []
    ∧ reapToolTasks
        (runToolTasksOps [ToolTasksOp.scheduleOp "e1", ToolTasksOp.finishOp "e1"]) = none
    ∧ resultModel none (some 1)
        (fun _ => some ⟨"t-1", .running, none, none, none, none⟩) "t-1" 6
      = ⟨.timeoutErr "t-1", true⟩ := by
  refine ⟨rfl, by decide, by decide, by decide⟩

theorem find?_eq_none_of_any_eq_false {α : Type} (ps : List (String × α)) (k : String)
    (h : ps.any (fun p => p.1 == k) = false) :
    ps.find? (fun p => p.1 == k) = none := by
  rw [List.find?_eq_none]
  intro p hp hpk
  rw [List.any_eq_false] at h
  exact h p hp hpk

theorem keys_map_of_key {α : Type} (g : String × α → String × α)
    (hg : ∀ p, (g p).1 = p.1) (l : List (String × α)) :
    (l.map g).map (fun p => p.1) = l.map (fun p => p.1) := by
  rw [List.map_map]
  exact List.map_congr_left (fun p _ => hg p)

theorem overwrite_key_preserving (k : String) (v : List String) :
    ∀ p : String × List String, ((if p.1 == k then (k, v) else p) : String × List String).1 = p.1 := by
  intro p
  by_cases hp : (p.1 == k) = true
  · rw [if_pos hp]
    exact (eq_of_beq hp).symm
  · rw [if_neg hp]

theorem lookupParam_overwrite_self (ps : List (String × List String)) (k : String)
    (v : List String) (h : ps.any (fun p => p.1 == k) = true) :
    lookupParam (ps.map (fun p => if p.1 == k then (k, v) else p)) k = some v := by
  unfold lookupParam
  rw [find?_map_of_key _ (overwrite_key_preserving k v) ps k]
  cases hq : ps.find? (fun p => p.1 == k) with
  | none =>
    rw [List.find?_eq_none] at hq
    obtain ⟨p, hp, hpk⟩ := List.any_eq_true.mp h
    exact absurd hpk (hq p hp)
  | some q =>
    have hqk := List.find?_some hq
    simp only at hqk
    simp [eq_of_beq hqk]

theorem lookupParam_overwrite_other (ps : List (String × List String)) (k k2 : String)
    (v : List String) (hne : k2 ≠ k) :
    lookupParam (ps.map (fun p => if p.1 == k then (k, v) else p)) k2 = lookupParam ps k2 := by
  unfold lookupParam
  rw [find?_map_of_key _ (overwrite_key_preserving k v) ps k2]
  cases hf : ps.find? (fun p => p.1 == k2) with
  | none => rfl
  | some q =>
    have hqk2 := List.find?_some hf
    simp only at hqk2
    have hq2 : q.1 = k2 := eq_of_beq hqk2
    simp [hq2, hne]

theorem lookupParam_append_single_self (ps : List (String × List String)) (k : String)
    (v : List String) (h : ps.any (fun p => p.1 == k) = false) :
    lookupParam (ps ++ [(k, v)]) k = some v := by
  unfold lookupParam
  rw [List.find?_append, find?_eq_none_of_any_eq_false ps k h]
  simp

theorem lookupParam_append_single_other (ps : List (String × List String)) (k k2 : String)
    (v : List String) (hne : k2 ≠ k) :
    lookupParam (ps ++ [(k, v)]) k2 = lookupParam ps k2 := by
  unfold lookupParam
  rw [List.find?_append]
  cases hf : ps.find? (fun p => p.1 == k2) with
  | none => simp [List.find?, beq_false_of_ne (Ne.symm hne)]
  | some q => simp

theorem lookupParam_dictUpdate_self (ps : List (String × List String)) (k : String)
    (v : List String) : lookupParam (dictUpdate ps k v) k = some v := by
  unfold dictUpdate
  by_cases h : ps.any (fun p => p.1 == k) = true
  · rw [if_pos h]; exact lookupParam_overwrite_self ps k v h
  · rw [if_neg h]
    exact lookupParam_append_single_self ps k v (Bool.eq_false_iff.mpr h)

theorem lookupParam_dictUpdate_other (ps : List (String × List String)) (k k2 : String)
    (v : List String) (hne : k2 ≠ k) :
    lookupParam (dictUpdate ps k v) k2 = lookupParam ps k2 := by
  unfold dictUpdate
  by_cases h : ps.any (fun p => p.1 == k) = true
  · rw [if_pos h]; exact lookupParam_overwrite_other ps k k2 v hne
  · rw [if_neg h]; exact lookupParam_append_single_other ps k k2 v hne

theorem nodup_keys_update_shape {α : Type} (ps : List (String × α)) (k : String)
    (g : String × α → String × α) (hg : ∀ p, (g p).1 = p.1) (x : α)
    (h : (ps.map (fun p => p.1)).Nodup) :
    (((if ps.any (fun p => p.1 == k) = true then ps.map g else ps ++ [(k, x)]).map
        (fun p => p.1)) : List String).Nodup := by
  split
  · rw [keys_map_of_key g hg]; exact h
  case isFalse hany =>
    have hany' : ps.any (fun p => p.1 == k) = false := Bool.eq_false_iff.mpr hany
    rw [List.any_eq_false] at hany'
    rw [List.map_append]
    refine h.append (List.nodup_singleton k) ?_
    intro a ha hak
    obtain ⟨p, hp, hpa⟩ := List.mem_map.mp ha
    simp only [List.map_cons, List.map_nil, List.mem_singleton] at hak
    exact hany' p hp (by rw [hpa, hak]; exact beq_self_eq_true k)

theorem nodup_keys_dictUpdate (ps : List (String × List String)) (k : String) (v : List String)
    (h : (paramKeys ps).Nodup) : (paramKeys (dictUpdate ps k v)).Nodup := by
  unfold paramKeys at *
  unfold dictUpdate
  by_cases hany : ps.any (fun p => p.1 == k) = true
  · rw [if_pos hany]
    have := nodup_keys_update_shape ps k _ (overwrite_key_preserving k v) v h
    rw [if_pos hany] at this
    exact this
  · rw [if_neg hany]
    have := nodup_keys_update_shape ps k _ (overwrite_key_preserving k v) v h
    rw [if_neg hany] at this
    exact this

theorem addParam_key_preserving (kv : String × String) :
    ∀ p : String × List String,
      ((if p.1 == kv.1 then (p.1, p.2 ++ [kv.2]) else p) : String × List String).1 = p.1 := by
  intro p
  by_cases hp : (p.1 == kv.1) = true
  · rw [if_pos hp]
  · rw [if_neg hp]

theorem nodup_keys_addParam (acc : List (String × List String)) (kv : String × String)
    (h : (paramKeys acc).Nodup) : (paramKeys (addParam acc kv)).Nodup := by
  unfold paramKeys at *
  unfold addParam
  by_cases hany : acc.any (fun p => p.1 == kv.1) = true
  · rw [if_pos hany]
    have := nodup_keys_update_shape acc kv.1 _ (addParam_key_preserving kv) [kv.2] h
    rw [if_pos hany] at this
    exact this
  · rw [if_neg hany]
    have := nodup_keys_update_shape acc kv.1 _ (addParam_key_preserving kv) [kv.2] h
    rw [if_neg hany] at this
    exact this

theorem nodup_keys_foldl_addParam (l : List (String × String)) :
    ∀ acc : List (String × List String), (paramKeys acc).Nodup →
      (paramKeys (l.foldl addParam acc)).Nodup := by
  induction l with
  | nil => exact fun acc h => h
  | cons hd tl ih =>
    intro acc h
    exact ih (addParam acc hd) (nodup_keys_addParam acc hd h)

theorem nodup_keys_parse_qs (q : String) : (paramKeys (parse_qs q)).Nodup :=
  nodup_keys_foldl_addParam (parseQsl q) [] List.nodup_nil

/-- **C7 (amended)**: the query produced by `encode_url` is built from the
parameters of the raw query as `parse_qs` reads them — `interactive` and
`embed` are set to the lowercase string of each boolean (overwriting any
same-named parameter in place), every other parameter that `parse_qs` keeps
(i.e. every field with a non-empty value; empty-valued fields are dropped by
`parse_qs`) is preserved with its values, no key occurs twice, and in
particular `"https://x/y?z=1"` with `interactive=True, embed=False` yields
exactly `"https://x/y?z=1&interactive=true&embed=false"`. -/
theorem claim_C7_encode_url (q : String) (interactive embed : Bool) :
    lookupParam (updateParams (parse_qs q) interactive embed) "interactive"
      = some [pyBoolStr interactive]
    ∧ lookupParam (updateParams (parse_qs q) interactive embed) "embed"
      = some [pyBoolStr embed]
    ∧ (∀ k2, k2 ≠ "interactive" → k2 ≠ "embed" →
        lookupParam (updateParams (parse_qs q) interactive embed) k2
          = lookupParam (parse_qs q) k2)
    ∧ (paramKeys (updateParams (parse_qs q) interactive embed)).Nodup
    ∧ encode_url "https://x/y?z=1" true false
        = "https://x/y?z=1&interactive=true&embed=false" := by
  unfold updateParams
  refine ⟨?_, ?_, ?_, ?_, ?_⟩
  · rw [lookupParam_dictUpdate_other _ "embed" "interactive" _ (by decide)]
    exact lookupParam_dictUpdate_self _ _ _
  · exact lookupParam_dictUpdate_self _ _ _
  · intro k2 h1 h2
    rw [lookupParam_dictUpdate_other _ "embed" k2 _ h2,
      lookupParam_dictUpdate_other _ "interactive" k2 _ h1]
  · exact nodup_keys_dictUpdate _ _ _
      (nodup_keys_dictUpdate _ _ _ (nodup_keys_parse_qs q))
  · decide

/-- **C7 (amended) witness**: `"z=1"` with `interactive=True, embed=False`:
`z` is preserved and `interactive` injected. -/
theorem claim_C7_encode_url_witness :
    lookupParam (updateParams (parse_qs "z=1") true false) "z" = some ["1"]
    ∧ lookupParam (updateParams (parse_qs "z=1") true false) "interactive" = some ["true"] := by
  constructor
  · rw [(claim_C7_encode_url "z=1" true false).2.2.1 "z" (by decide) (by decide)]
    decide
  · exact (claim_C7_encode_url "z=1" true false).1

/-- **C7 counterexample**: the claim's "preserving every other query parameter"
fails for parameters with an empty value: in
`"https://x/y?a=&z=1"` the parameter `a` is present in the raw query, but
`parse_qs` (with its default `keep_blank_values=False`) drops it, so the URL
returned by `encode_url` contains no `a` parameter at all. -/
theorem claim_C7_counterexample :
    encode_url "https://x/y?a=&z=1" true false
      = "https://x/y?z=1&interactive=true&embed=false"
    ∧ parse_qs "a=&z=1" = [("z", ["1"])]
    ∧ lookupParam (parse_qs (urlparseModel
        (encode_url "https://x/y?a=&z=1" true false)).query) "a" = none := by
  refine ⟨by decide, by decide, by decide⟩

/-- **C5 (code evaluation at the failing input)**: a handle whose cached
snapshot is terminal (`done`) and has no live URL, with the Poller stopped at
that same terminal snapshot.  With `timeout=5`, `live_url` raises
`TimeoutError`; with the default `timeout=None` it never exits its loop (fuel
exhaustion in the model).  `LiveUrlOutcome` — the faithful outcome type of the
method — has no bad-request constructor at all, so `live_url` cannot fail with
`BadRequestError` as the claim (and the repository's own test
`test_live_url_raises_when_not_running`) requires. -/
theorem claim_C5_live_url_terminal_behaviour :
    liveUrlModel (some ⟨"t-1", .done, none, none, none, none⟩) false false (some 5)
        (fun _ => some ⟨"t-1", .done, none, none, none, none⟩) "t-1" 26
      = ⟨.timeoutErrLive "t-1", true⟩
    ∧ liveUrlModel (some ⟨"t-1", .done, none, none, none, none⟩) false false none
        (fun _ => some ⟨"t-1", .done, none, none, none, none⟩) "t-1" 1000
      = ⟨.outOfFuelLive, true⟩ := by
  refine ⟨by decide, ?_⟩
  have key : ∀ fuel k, liveUrlLoop
      (fun _ => some ⟨"t-1", .done, none, none, none, none⟩) "t-1" false false none fuel k
      = .outOfFuelLive := by
    intro fuel
    induction fuel with
    | zero => intro k; rfl
    | succ fuel ih =>
      intro k
      rw [liveUrlLoop]
      simp [withinDeadline, liveAvailable, ih]
  simp [liveUrlModel, liveAvailable, key]

theorem recordingLoop_404 (snap : Nat → Option TaskResponse) (tid : String)
    (timeout : Option Int) :
    ∀ (k fuel start : Nat),
      (∀ j, j < k → recWaiting (snap (start + j)) = true) →
      (∃ r, snap (start + k) = some r ∧ r.recording_url = some "") →
      withinDeadline timeout (start + k) = true →
      k < fuel →
      recordingLoop snap tid timeout fuel start
        = .apiError404 (recordingNotEnabledDetail tid) := by
  intro k
  induction k with
  | zero =>
    intro fuel start hwait hex hwithin hfuel
    obtain ⟨fuel, rfl⟩ : ∃ f, fuel = f + 1 := ⟨fuel - 1, by omega⟩
    obtain ⟨r, hr, hru⟩ := hex
    rw [Nat.add_zero] at hr hwithin
    rw [recordingLoop, if_pos hwithin, hr]
    simp [hru]
  | succ k ih =>
    intro fuel start hwait hex hwithin hfuel
    obtain ⟨fuel, rfl⟩ : ∃ f, fuel = f + 1 := ⟨fuel - 1, by omega⟩
    have hw0 : withinDeadline timeout start = true :=
      withinDeadline_mono timeout start (start + (k + 1)) (by omega) hwithin
    have heq : start + 1 + k = start + (k + 1) := by omega
    have hrec : recordingLoop snap tid timeout fuel (start + 1)
        = .apiError404 (recordingNotEnabledDetail tid) := by
      apply ih fuel (start + 1)
      · intro j hj
        have h1 := hwait (j + 1) (by omega)
        have heq2 : start + 1 + j = start + (j + 1) := by omega
        rw [heq2]; exact h1
      · rw [heq]; exact hex
      · rw [heq]; exact hwithin
      · omega
    have hw : recWaiting (snap start) = true := by
      have h0 := hwait 0 (by omega)
      rw [Nat.add_zero] at h0
      exact h0
    rw [recordingLoop, if_pos hw0]
    cases hs : snap start with
    | none => exact hrec
    | some r0 =>
      rw [hs] at hw
      cases hru : r0.recording_url with
      | some u => simp [recWaiting, hru] at hw
      | none =>
        simp only [hru]
        exact hrec

/-- **C8 counterexample**: a handle whose cached snapshot already shows
`status="done", recording_url=""` — the scenario of the claim — returns the
empty string through the fast path (`recording_url is not None` is true for
`""`), raising no error at all. -/
theorem claim_C8_counterexample :
    recordingUrlModel (some ⟨"t-1", .done, none, none, some "", none⟩) (some 30)
        (fun _ => none) "t-1" 5
      = ⟨.okRec "", false⟩ := rfl

/-- **C8 (amended)**: when the cached snapshot at entry has no `recording_url`
value (so the fast path is skipped) and a snapshot observed while waiting
first populates the field with the empty string within the deadline,
`recording_url` raises the 404 `ApiError` whose detail says recording was not
enabled (`Set enable_recording=True ...`); but when the cached snapshot at
call time already holds the empty string, the fast path returns the empty
string with no error (see the counterexample). -/
theorem claim_C8_recording_url_empty
    (cached : Option TaskResponse) (timeout : Option Int)
    (snap : Nat → Option TaskResponse) (tid : String) (fuel k : Nat) (r : TaskResponse)
    (hcache : recWaiting cached = true)
    (hwait : ∀ j, j < k → recWaiting (snap j) = true)
    (hk : snap k = some r) (hr : r.recording_url = some "")
    (hwithin : withinDeadline timeout k = true) (hfuel : k < fuel) :
    recordingUrlModel cached timeout snap tid fuel
      = ⟨.apiError404 (recordingNotEnabledDetail tid), true⟩ := by
  have hloop := recordingLoop_404 snap tid timeout k fuel 0
    (by intro j hj; simpa using hwait j hj)
    ⟨r, by simpa using hk, hr⟩ (by simpa using hwithin) hfuel
  cases cached with
  | none => simp [recordingUrlModel, hloop]
  | some rc =>
    cases hrc : rc.recording_url with
    | some u => simp [recWaiting, hrc] at hcache
    | none => simp [recordingUrlModel, hrc, hloop]

/-- **C8 (amended) witness**: the empty recording URL is first observed at the
second check; the 404 `ApiError` carries the enable-recording detail. -/
theorem claim_C8_recording_url_empty_witness :
    recWaiting (some ⟨"t-1", .running, none, none, none, none⟩) = true
    ∧ recordingUrlModel (some ⟨"t-1", .running, none, none, none, none⟩) (some 30)
        (fun j => if j < 1 then some ⟨"t-1", .running, none, none, none, none⟩
                  else some ⟨"t-1", .done, none, none, some "", none⟩) "t-1" 5
      = ⟨.apiError404 (recordingNotEnabledDetail "t-1"), true⟩ :=
  ⟨by decide,
   claim_C8_recording_url_empty (some ⟨"t-1", .running, none, none, none, none⟩) (some 30)
      (fun j => if j < 1 then some ⟨"t-1", .running, none, none, none, none⟩
                else some ⟨"t-1", .done, none, none, some "", none⟩) "t-1" 5 1
      ⟨"t-1", .done, none, none, some "", none⟩ (by decide)
      (by intro j hj; interval_cases j; decide) (by decide) (by decide) (by decide)
      (by decide)⟩

/-- **C9 (code evaluation at the failing input)**: `close(force=False)` sends a
`browser_action` event (not a `session_action` one) with payload name
`"close"` and `has_result=False`, so no correlated reply is registered or
awaited and a stopped Poller is not handled; `close(force=True)` deletes the
task via Transport without correlation; both branches disconnect.  The spec
and the repository's tests (`test_close_graceful_sends_close_event`,
`test_close_graceful_runtime_error_fallback`) instead expect a `session_action`
event whose correlated reply is awaited, with a stopped Poller treated as
success. -/
theorem claim_C9_close_effects :
    closeModel false = ⟨false, some "browser_action", some "close", false, true⟩
    ∧ (closeModel false).sentEventName ≠ some "session_action"
    ∧ (closeModel false).awaitedReply = false
    ∧ closeModel true = ⟨true, none, none, false, true⟩
    ∧ (closeModel true).disconnected = true ∧ (closeModel false).disconnected = true := by
  refine ⟨rfl, by decide, rfl, rfl, rfl, rfl⟩

end Smooth
